import Mathlib

/-!
Verification of the DNS wire-format codec core (`domain` crate excerpt):
the NSEC record-type bitmap codec (`RtypeBitmap`, `RtypeBitmapBuilder`),
the DNSSEC canonical comparator of `Nsec`, the DNSKEY key-tag computation,
the length guards of `Srv::parse_all` and `Ds::parse_all`, and the
`SliceParser` cursor.

Byte buffers are embedded as `List Nat` (each element an octet value).
Fallible Rust functions are embedded as `Except`-returning functions; Rust
code that can panic (out-of-bounds slice indexing, `unwrap` of `None`) is
embedded as `Option`-returning, `none` standing for the panic.  Operations
on a `&mut` parser return the updated parser alongside the result; on
failure the unchanged parser is returned, mirroring that the Rust code
fails before mutating.
-/

/-- Lexicographic comparison of byte sequences, as `Ord for [u8]`:
elementwise comparison, a strict prefix comparing less. -/
def listCmp : List Nat → List Nat → Ordering
  | [], [] => Ordering.eq
  | [], _ :: _ => Ordering.lt
  | _ :: _, [] => Ordering.gt
  | a :: as_, b :: bs =>
    match compare a b with
    | Ordering.eq => listCmp as_ bs
    | o => o

/-- The error type of `RtypeBitmap::from_octets`
(`rfc4034.rs`, enum `RtypeBitmapError`). -/
inductive RtypeBitmapError
  | shortBuf
  | badRtypeBitmap
deriving DecidableEq, Repr

/-- The validation loop of `RtypeBitmap::from_octets` (`rfc4034.rs` lines
991-1012).  The Rust loop reads `data[1]` without first checking that the
slice holds at least two bytes, so a one-byte remainder panics: that case
is `none`.  Each well-formed window (`len` not 2, not above 34, enough
bytes left) is skipped by `data = &data[len..]`. -/
def RtypeBitmap.check : List Nat → Option (Except RtypeBitmapError Unit)
  | [] => some (Except.ok ())
  | [_] => none
  | a :: b :: rest =>
    let len := b + 2
    if len = 2 then some (Except.error RtypeBitmapError.badRtypeBitmap)
    else if len > 34 then some (Except.error RtypeBitmapError.badRtypeBitmap)
    else if (a :: b :: rest).length < len then
      some (Except.error RtypeBitmapError.shortBuf)
    else RtypeBitmap.check (List.drop len (a :: b :: rest))
termination_by data => data.length
decreasing_by simp [List.length_drop]; omega

/-- `RtypeBitmap::from_octets`: validate the windows and, on success, wrap
the very octets that were passed in.  `none` is the panic of the
validation loop. -/
def RtypeBitmap.from_octets (octets : List Nat) :
    Option (Except RtypeBitmapError (List Nat)) :=
  match RtypeBitmap.check octets with
  | none => none
  | some (Except.error e) => some (Except.error e)
  | some (Except.ok _) => some (Except.ok octets)

/-- `split_rtype` (`rfc4034.rs` lines 1436-1443): split a (16-bit) record
type into window number (`rtype >> 8`), octet index within the window
(`(rtype & 0xFF) >> 3`) and bit mask (`0b1000_0000 >> (rtype & 0x07)`). -/
def split_rtype (rtype : Nat) : Nat × Nat × Nat :=
  (rtype % 65536 / 256, rtype % 256 / 8, 128 / 2 ^ (rtype % 8))

/-- The scan loop of `RtypeBitmap::contains` (`rfc4034.rs` lines
1034-1046) with `read_window` (lines 1447-1458) inlined.  `read_window`
returning `None` makes the `unwrap` panic (`none` here); when the matching
window is found the code returns `!(window.len() < octet ||
window[octet] & mask == 0)`, where the short-circuiting `||` evaluates
`window[octet]` only if `octet <= window.len()` — so `octet ==
window.len()` indexes out of bounds (`none` here). -/
def RtypeBitmap.containsLoop (block octet mask : Nat) :
    List Nat → Option Bool
  | [] => some false
  | [_] => none
  | n :: l :: rest =>
    if l ≤ rest.length then
      let window := rest.take l
      if n = block then
        if window.length < octet then some false
        else
          match window.get? octet with
          | some w => some (!(w &&& mask = 0 : Bool))
          | none => none
      else RtypeBitmap.containsLoop block octet mask (rest.drop l)
    else none
termination_by data => data.length
decreasing_by simp [List.length_drop]; omega

/-- `RtypeBitmap::contains`, on the octets owned by the bitmap. -/
def RtypeBitmap.contains (data : List Nat) (rtype : Nat) : Option Bool :=
  RtypeBitmap.containsLoop (split_rtype rtype).1 (split_rtype rtype).2.1
    (split_rtype rtype).2.2 data

/-- C10: `RtypeBitmap::from_octets` is claimed total on arbitrary octet
sequences, every index it reads being in bounds.  The code reads the
length byte `data[1]` before checking that two bytes remain, so the
one-byte input `[0x00]` (a window number with no length byte) makes it
index out of bounds and panic instead of returning a typed error. -/
theorem c10_from_octets_panics_on_lone_window_byte :
    RtypeBitmap.from_octets [0] = none := by
  simp [RtypeBitmap.from_octets, RtypeBitmap.check]

/-- C2: on the validated bitmap `00 01 40` (window 0 encoded with one
octet, containing type 1) the claim says `contains(8)` returns `false`
because type 8's octet index 1 is at the number of encoded octets.  The
code only guards `window.len() < octet`, so for `octet == window.len()` it
evaluates `window[1]` on the one-byte window and panics.  `contains 1` and
`contains 256` show the in-bounds true and missing-window false cases the
claim also describes. -/
theorem c2_contains_panics_at_encoded_length :
    RtypeBitmap.from_octets [0, 1, 64] = some (Except.ok [0, 1, 64])
    ∧ RtypeBitmap.contains [0, 1, 64] 1 = some true
    ∧ RtypeBitmap.contains [0, 1, 64] 256 = some false
    ∧ RtypeBitmap.contains [0, 1, 64] 8 = none := by
  refine ⟨?_, ?_, ?_, ?_⟩ <;>
    simp [RtypeBitmap.from_octets, RtypeBitmap.check, RtypeBitmap.contains,
      RtypeBitmap.containsLoop, split_rtype]

/-- One staging slot of `RtypeBitmapBuilder` (`rfc4034.rs` lines
1184-1262): in the Rust buffer each block occupies 34 consecutive bytes —
window number, length byte, 32 bitmap octets; the flat buffer is embedded
as a list of slots. -/
structure BuilderSlot where
  window : Nat
  lenByte : Nat
  bits : List Nat
deriving DecidableEq, Repr

/-- A freshly inserted all-zero 34-byte slot for a window. -/
def BuilderSlot.empty (block : Nat) : BuilderSlot :=
  ⟨block, 0, List.replicate 32 0⟩

/-- The body of `RtypeBitmapBuilder::add` once its block is located: raise
the recorded length if the new bit lies beyond the high-water mark
(`if block[1] < octet + 1 { block[1] = octet + 1 }`) and set the bit
(`block[octet + 2] |= bit`). -/
def BuilderSlot.setBit (octet bit : Nat) (s : BuilderSlot) : BuilderSlot :=
  { s with
    lenByte := if s.lenByte < octet + 1 then octet + 1 else s.lenByte,
    bits := s.bits.set octet (s.bits.getD octet 0 ||| bit) }

/-- `RtypeBitmapBuilder::get_block` combined with the bit-setting of
`add`: scan the sorted slots; reuse a slot with the same window number,
insert a fresh slot before the first larger one, or append at the end. -/
def RtypeBitmapBuilder.insert (block octet bit : Nat) :
    List BuilderSlot → List BuilderSlot
  | [] => [BuilderSlot.setBit octet bit (BuilderSlot.empty block)]
  | s :: rest =>
    if s.window = block then BuilderSlot.setBit octet bit s :: rest
    else if s.window > block then
      BuilderSlot.setBit octet bit (BuilderSlot.empty block) :: s :: rest
    else s :: RtypeBitmapBuilder.insert block octet bit rest

/-- `RtypeBitmapBuilder::add` (`rfc4034.rs` lines 1197-1204). -/
def RtypeBitmapBuilder.add (rtype : Nat) (buf : List BuilderSlot) :
    List BuilderSlot :=
  RtypeBitmapBuilder.insert (split_rtype rtype).1 (split_rtype rtype).2.1
    (split_rtype rtype).2.2 buf

/-- `RtypeBitmapBuilder::finalize` (`rfc4034.rs` lines 1241-1261): each
34-byte slot is compacted down to `2 + length` bytes — window number,
length byte, and the first `length` bitmap octets — written contiguously. -/
def RtypeBitmapBuilder.finalize (buf : List BuilderSlot) : List Nat :=
  (buf.map (fun s => s.window :: s.lenByte :: s.bits.take s.lenByte)).flatten

/-- C3: building the singleton set S = {1} (type A) and finalizing yields
the bitmap `00 01 40`, whose decoded membership is exactly S; but
`contains` does not agree with membership for every type in [0, 65535]:
`contains 8` panics (octet index 1 equals the encoded window length)
instead of returning `false` for 8 ∉ S. -/
theorem c3_roundtrip_contains_panics :
    RtypeBitmapBuilder.finalize (RtypeBitmapBuilder.add 1 []) = [0, 1, 64]
    ∧ RtypeBitmap.contains
        (RtypeBitmapBuilder.finalize (RtypeBitmapBuilder.add 1 [])) 1
      = some true
    ∧ RtypeBitmap.contains
        (RtypeBitmapBuilder.finalize (RtypeBitmapBuilder.add 1 [])) 8
      = none := by
  refine ⟨?_, ?_, ?_⟩ <;>
    simp [RtypeBitmapBuilder.finalize, RtypeBitmapBuilder.add,
      RtypeBitmapBuilder.insert, BuilderSlot.setBit, BuilderSlot.empty,
      RtypeBitmap.contains, RtypeBitmap.containsLoop, split_rtype,
      List.replicate, List.set]

/-- Lower-casing of one octet of a composed domain name.  Modelled from
the spec: the name type and its case-insensitive `name_eq` are not under
`src/`; composed wire names are label-length bytes (at most 63, hence
untouched) and label octets, case-folded by mapping ASCII `A`-`Z` to
`a`-`z`. -/
def lowerByte (b : Nat) : Nat := if 65 ≤ b ∧ b ≤ 90 then b + 32 else b

/-- An NSEC record-data value (`rfc4034.rs` lines 616-620): `next_name` is
held as its composed (case-preserved) wire octets, `types` as the octets
of a validated `RtypeBitmap`. -/
structure Nsec where
  next_name : List Nat
  types : List Nat
deriving DecidableEq, Repr

/-- `Nsec::canonical_cmp` (`rfc4034.rs` lines 678-686): the next name is
compared by `composed_cmp` — the case-preserving comparison of composed
wire octets (RFC 6840 forbids lower-casing NSEC's next name) — and then
the code computes `self.types.cmp(&self.types)`, comparing the left-hand
bitmap with itself. -/
def Nsec.canonical_cmp (a b : Nsec) : Ordering :=
  match listCmp a.next_name b.next_name with
  | Ordering.eq => listCmp a.types a.types
  | o => o

/-- `PartialEq for Nsec` (`rfc4034.rs` lines 643-653):
`self.next_name.name_eq(&other.next_name) && self.types == other.types`,
with `name_eq` the case-insensitive name equality. -/
def Nsec.eqb (a b : Nsec) : Bool :=
  (a.next_name.map lowerByte == b.next_name.map lowerByte)
  && (a.types == b.types)

/-- The composed wire form of the name `a.`: label length 1, octet `a`,
root label. -/
def nsecExampleName : List Nat := [1, 97, 0]

/-- C1: for two NSEC values whose next names compare equal under the
case-preserving composed comparison, the claim says `canonical_cmp`
returns the raw lexicographic comparison of the two type bitmaps — here
`lt`, since `00 01 40` sorts before `00 01 80`.  The code instead compares
`self.types` against itself and returns `eq`. -/
theorem c1_canonical_cmp_ignores_other_bitmap :
    listCmp nsecExampleName nsecExampleName = Ordering.eq
    ∧ listCmp [0, 1, 64] [0, 1, 128] = Ordering.lt
    ∧ Nsec.canonical_cmp ⟨nsecExampleName, [0, 1, 64]⟩
        ⟨nsecExampleName, [0, 1, 128]⟩ = Ordering.eq := by
  refine ⟨?_, ?_, ?_⟩ <;> decide

/-- C4: `canonical_cmp` is claimed to be `Equal` only on equal values.
For NSEC the self-comparison of the type bitmap breaks this: two values
with the same next name but different bitmaps (`00 01 40` vs `00 01 20`)
compare `Equal` yet are unequal under the record's own equality. -/
theorem c4_canonical_cmp_equal_on_unequal_nsec :
    Nsec.canonical_cmp ⟨nsecExampleName, [0, 1, 64]⟩
        ⟨nsecExampleName, [0, 1, 32]⟩ = Ordering.eq
    ∧ Nsec.eqb ⟨nsecExampleName, [0, 1, 64]⟩ ⟨nsecExampleName, [0, 1, 32]⟩
      = false := by
  refine ⟨?_, ?_⟩ <;> decide

/-- A DNSKEY record-data value (`rfc4034.rs` lines 29-35).  The fields are
the 16-bit flags, 8-bit protocol, the algorithm held as its IANA integer
value (the `SecAlg` registry is consumed as an opaque enumeration), and
the public key octets. -/
structure Dnskey where
  flags : Nat
  protocol : Nat
  algorithm : Nat
  public_key : List Nat
deriving DecidableEq, Repr

/-- The IANA integer value of the legacy `SecAlg::RsaMd5` identifier. -/
def secAlgRsaMd5 : Nat := 1

/-- The pairwise summing loop of `Dnskey::key_tag` (`rfc4034.rs` lines
129-139): octets at even indexes are added shifted left by 8 bits, octets
at odd indexes are added as they are, each addition wrapping in 32 bits;
an odd trailing octet contributes only its shifted half. -/
def keyTagLoop : Nat → List Nat → Nat
  | res, [] => res
  | res, [x] => (res + x * 256) % 4294967296
  | res, x :: y :: rest =>
    keyTagLoop (((res + x * 256) % 4294967296 + y) % 4294967296) rest

/-- `Dnskey::key_tag` (`rfc4034.rs` lines 106-143).  For `RsaMd5` the tag
is the big-endian 16-bit value of the third-to-last and second-to-last key
octets, or 0 for keys shorter than 3 octets.  Otherwise flags, protocol
shifted by 8, and the algorithm seed the 32-bit sum, the key octets are
added pairwise, the upper 16 bits are folded back once, and the low 16
bits are the tag. -/
def Dnskey.key_tag (k : Dnskey) : Nat :=
  if k.algorithm = secAlgRsaMd5 then
    if k.public_key.length > 2 then
      k.public_key.getD (k.public_key.length - 3) 0 * 256
        + k.public_key.getD (k.public_key.length - 2) 0
    else 0
  else
    let res := k.flags
    let res := (res + k.protocol * 256) % 4294967296
    let res := (res + k.algorithm) % 4294967296
    let res := keyTagLoop res k.public_key
    let res := (res + (res >>> 16) % 65536) % 4294967296
    res % 65536

/-- The big-endian 16-bit words of a byte sequence, an odd trailing byte
contributing only its high half.  Used by the claim-side restatement of
the key-tag algorithm. -/
def words16 : List Nat → List Nat
  | [] => []
  | [x] => [x * 256]
  | x :: y :: rest => (x * 256 + y) :: words16 rest

/-- Restatement of the key-tag computation following the claim's words:
treat `flags(2) + protocol(1) + algorithm(1) + public_key` as big-endian
16-bit words, sum them in 32-bit arithmetic, fold bits 16-31 back into
bits 0-15 once, and take the low 16 bits; for `RsaMd5`, the big-endian
value of the third-to-last and second-to-last key octets (0 if the key has
fewer than 3 octets). -/
def keyTagSpec (k : Dnskey) : Nat :=
  if k.algorithm = secAlgRsaMd5 then
    if k.public_key.length > 2 then
      k.public_key.getD (k.public_key.length - 3) 0 * 256
        + k.public_key.getD (k.public_key.length - 2) 0
    else 0
  else
    let res := (k.flags :: (k.protocol * 256 + k.algorithm)
        :: words16 k.public_key).foldl
      (fun acc w => (acc + w) % 4294967296) 0
    let res := (res + (res >>> 16) % 65536) % 4294967296
    res % 65536

/-- Recursion principle matching the two-octets-at-a-time loops. -/
theorem listPairInduction {P : List Nat → Prop} (h0 : P [])
    (h1 : ∀ x, P [x]) (h2 : ∀ x y l, P l → P (x :: y :: l)) :
    ∀ l, P l
  | [] => h0
  | [x] => h1 x
  | x :: y :: l => h2 x y l (listPairInduction h0 h1 h2 l)

/-- The pairwise loop computes the wrapping sum of the big-endian 16-bit
words of the octets. -/
theorem keyTagLoop_eq_foldl (l : List Nat) :
    ∀ res, keyTagLoop res l
      = (words16 l).foldl (fun acc w => (acc + w) % 4294967296) res := by
  induction l using listPairInduction with
  | h0 => intro res; simp [keyTagLoop, words16]
  | h1 x => intro res; simp [keyTagLoop, words16]
  | h2 x y l ih =>
    intro res
    simp only [keyTagLoop, words16, List.foldl_cons, ih]
    congr 1
    omega

/-- The first published RSA/SHA-256 test key of the repository's key-tag
test (260 octets, base64 `AwEAAcTQyaIe...`); expected tag 59944. -/
def goldenKeyRsaSha256A : List Nat :=
  [3, 1, 0, 1, 196, 208, 201, 162, 30, 234, 123, 119, 197, 35, 206, 27,
   98, 255, 97, 252, 1, 144, 229, 83, 36, 222, 166, 150, 118, 118, 227,
   211, 185, 70, 219, 119, 101, 36, 80, 31, 20, 18, 91, 173, 64, 56, 54,
   48, 233, 187, 224, 198, 186, 198, 171, 199, 158, 58, 231, 167, 22, 55,
   18, 98, 3, 64, 49, 192, 88, 160, 70, 24, 152, 160, 214, 233, 239, 68,
   175, 37, 184, 101, 164, 255, 48, 42, 190, 240, 9, 180, 234, 132, 120,
   211, 16, 0, 221, 240, 165, 56, 206, 144, 141, 23, 19, 243, 155, 79,
   227, 81, 168, 247, 142, 128, 137, 192, 70, 63, 197, 206, 63, 240, 35,
   213, 162, 63, 160, 244, 70, 205, 25, 219, 161, 67, 212, 162, 79, 192,
   205, 51, 103, 91, 153, 233, 5, 78, 189, 248, 27, 162, 35, 6, 4, 238,
   100, 14, 136, 208, 69, 120, 252, 175, 141, 0, 93, 162, 43, 152, 110,
   107, 131, 220, 252, 180, 35, 40, 229, 7, 28, 217, 81, 118, 234, 46,
   196, 75, 246, 6, 5, 144, 42, 158, 77, 141, 189, 34, 78, 238, 178, 236,
   204, 77, 175, 137, 69, 34, 243, 232, 161, 146, 229, 20, 137, 236, 36,
   210, 50, 54, 96, 241, 163, 90, 81, 179, 118, 118, 241, 161, 106, 66,
   79, 135, 221, 135, 156, 187, 204, 3, 116, 222, 124, 88, 27, 40, 154,
   97, 20, 211, 192, 220, 21, 146, 40, 182, 116, 217, 196, 86, 94, 163]

/-- The second published RSA/SHA-256 test key (260 octets, base64
`AwEAAaz/tAm8...`); expected tag 20326. -/
def goldenKeyRsaSha256B : List Nat :=
  [3, 1, 0, 1, 172, 255, 180, 9, 188, 201, 57, 248, 49, 247, 161, 229,
   236, 136, 247, 165, 146, 85, 236, 83, 4, 11, 228, 50, 2, 115, 144, 164,
   206, 137, 109, 111, 144, 134, 243, 197, 225, 119, 251, 254, 17, 129,
   99, 170, 236, 122, 241, 70, 44, 71, 148, 89, 68, 196, 226, 192, 38,
   190, 94, 152, 187, 205, 237, 37, 151, 130, 114, 225, 227, 224, 121,
   197, 9, 77, 87, 63, 14, 131, 201, 47, 2, 179, 45, 53, 19, 177, 85, 11,
   130, 105, 41, 200, 13, 208, 249, 44, 172, 150, 109, 23, 118, 159, 213,
   134, 123, 100, 124, 63, 56, 2, 154, 189, 196, 129, 82, 235, 143, 32,
   113, 89, 236, 197, 210, 50, 199, 193, 83, 124, 121, 244, 183, 172, 40,
   255, 17, 104, 47, 33, 104, 27, 246, 214, 171, 165, 85, 3, 43, 246, 249,
   240, 54, 190, 178, 170, 165, 179, 119, 141, 110, 235, 251, 166, 191,
   158, 161, 145, 190, 74, 176, 202, 234, 117, 158, 47, 119, 58, 31, 144,
   41, 199, 62, 203, 141, 87, 53, 185, 50, 29, 176, 133, 241, 184, 226,
   216, 3, 143, 226, 148, 25, 146, 84, 140, 238, 13, 103, 221, 69, 71,
   225, 29, 214, 58, 249, 201, 252, 28, 84, 102, 251, 104, 76, 240, 9,
   215, 25, 124, 44, 247, 158, 121, 42, 181, 1, 230, 168, 161, 202, 81,
   154, 242, 203, 155, 95, 99, 103, 233, 76, 13, 71, 80, 36, 81, 53, 123,
   225, 181]

/-- The published RSA/MD5 test key (132 octets, base64 `AwEAAcVaA4jS...`);
expected tag 18698. -/
def goldenKeyRsaMd5 : List Nat :=
  [3, 1, 0, 1, 197, 90, 3, 136, 210, 4, 129, 145, 173, 44, 233, 121, 202,
   9, 16, 187, 202, 19, 223, 142, 50, 225, 103, 47, 201, 166, 80, 27, 24,
   148, 30, 158, 164, 221, 66, 169, 126, 205, 207, 8, 195, 166, 46, 149,
   201, 40, 132, 94, 189, 2, 226, 228, 216, 145, 79, 203, 214, 227, 47,
   218, 97, 196, 2, 88, 211, 132, 80, 201, 212, 107, 168, 204, 158, 160,
   3, 184, 223, 222, 89, 218, 26, 154, 81, 131, 98, 40, 85, 15, 72, 86,
   98, 206, 70, 104, 240, 11, 238, 196, 162, 45, 118, 74, 172, 155, 49,
   56, 156, 15, 113, 51, 193, 175, 87, 108, 109, 98, 62, 57, 163, 133,
   179, 43, 46, 30, 204, 73, 10, 87]
set_option maxRecDepth 100000 in
/-- C5: `Dnskey::key_tag` computes exactly the algorithm the claim
describes — restated word-for-word as `keyTagSpec` — and reproduces the
three published golden vectors: 59944 and 20326 for the RSA/SHA-256 keys
(flags 256 resp. 257, protocol 3, algorithm 8) and 18698 for the RSA/MD5
key (flags 257, protocol 3, algorithm 1). -/
theorem c5_key_tag_spec_and_golden_vectors :
    (∀ k : Dnskey, Dnskey.key_tag k = keyTagSpec k)
    ∧ Dnskey.key_tag ⟨256, 3, 8, goldenKeyRsaSha256A⟩ = 59944
    ∧ Dnskey.key_tag ⟨257, 3, 8, goldenKeyRsaSha256B⟩ = 20326
    ∧ Dnskey.key_tag ⟨257, 3, 1, goldenKeyRsaMd5⟩ = 18698 := by
  refine ⟨?_, by decide, by decide, by decide⟩
  intro k
  simp only [Dnskey.key_tag, keyTagSpec]
  split
  · rfl
  · simp only [List.foldl_cons, keyTagLoop_eq_foldl]
    have h : ((k.flags + k.protocol * 256) % 4294967296 + k.algorithm)
          % 4294967296
        = ((0 + k.flags) % 4294967296 + (k.protocol * 256 + k.algorithm))
          % 4294967296 := by
      omega
    rw [h]

/-- The error returned by a failing cursor read.  Modelled from the spec:
the crate's `ParseError` enum lives outside `src/`; `SliceParser` only
ever produces its unexpected-end variant. -/
inductive ParseError
  | unexpectedEnd
deriving DecidableEq, Repr

/-- `SliceParser` (`parse.rs` lines 133-136): the not-yet-consumed slice
and the count of bytes seen so far. -/
structure SliceParser where
  slice : List Nat
  seen : Nat
deriving DecidableEq, Repr

/-- `SliceParser::check_len` (`parse.rs` lines 143-150). -/
def SliceParser.check_len (p : SliceParser) (len : Nat) :
    Except ParseError Unit :=
  if len > p.slice.length then Except.error ParseError.unexpectedEnd
  else Except.ok ()

/-- `SliceParser::parse_bytes` (`parse.rs` lines 154-160): check the
length, split the slice at `len`, return the front part and advance.  On
failure the parser is returned unchanged — the Rust code errors out before
mutating `self`. -/
def SliceParser.parse_bytes (p : SliceParser) (len : Nat) :
    Except ParseError (List Nat) × SliceParser :=
  match p.check_len len with
  | Except.error e => (Except.error e, p)
  | Except.ok _ =>
    (Except.ok (p.slice.take len), ⟨p.slice.drop len, p.seen + len⟩)

/-- `SliceParser::skip` (`parse.rs` lines 162-167). -/
def SliceParser.skip (p : SliceParser) (len : Nat) :
    Except ParseError Unit × SliceParser :=
  match p.check_len len with
  | Except.error e => (Except.error e, p)
  | Except.ok _ => (Except.ok (), ⟨p.slice.drop len, p.seen + len⟩)

/-- `SliceParser::parse_sub` (`parse.rs` lines 173-175): consume `len`
bytes from the parent and wrap them in a fresh sub-parser with `seen =
0`. -/
def SliceParser.parse_sub (p : SliceParser) (len : Nat) :
    Except ParseError SliceParser × SliceParser :=
  match p.parse_bytes len with
  | (Except.error e, p') => (Except.error e, p')
  | (Except.ok bytes, p') => (Except.ok ⟨bytes, 0⟩, p')

/-- `SliceParser::left` (`parse.rs` lines 181-183). -/
def SliceParser.left (p : SliceParser) : Nat := p.slice.length

/-- C8: `parse_bytes(n)` succeeds exactly when at least `n` bytes remain,
returning precisely the first `n` bytes (never fewer) and advancing `seen`
by `n`; with fewer than `n` bytes left it fails with the unexpected-end
error, leaving the parser untouched. -/
theorem c8_parse_bytes_exact (p : SliceParser) (n : Nat) :
    (n ≤ p.left →
      p.parse_bytes n
        = (Except.ok (p.slice.take n), ⟨p.slice.drop n, p.seen + n⟩)
      ∧ (p.slice.take n).length = n)
    ∧ (p.left < n →
      p.parse_bytes n = (Except.error ParseError.unexpectedEnd, p)) := by
  constructor
  · intro h
    constructor
    · simp [SliceParser.parse_bytes, SliceParser.check_len,
        Nat.not_lt.mpr h, SliceParser.left] at *
      simp [Nat.not_lt.mpr h]
    · simp [List.length_take]
      exact h
  · intro h
    simp [SliceParser.parse_bytes, SliceParser.check_len, SliceParser.left]
      at *
    simp [h]

/-- C8 witness: at the concrete parser over `[1, 2, 3]`, `parse_bytes 2`
returns exactly the two first bytes and advances by 2, and `parse_bytes 5`
fails with the unexpected-end error leaving the parser unchanged. -/
theorem c8_parse_bytes_exact_witness :
    SliceParser.parse_bytes ⟨[1, 2, 3], 0⟩ 2
      = (Except.ok [1, 2], ⟨[3], 2⟩)
    ∧ SliceParser.parse_bytes ⟨[1, 2, 3], 0⟩ 5
      = (Except.error ParseError.unexpectedEnd, ⟨[1, 2, 3], 0⟩) := by
  constructor
  · have h := (c8_parse_bytes_exact ⟨[1, 2, 3], 0⟩ 2).1 (by decide)
    simpa using h.1
  · exact (c8_parse_bytes_exact ⟨[1, 2, 3], 0⟩ 5).2 (by decide)

/-- C9: for every parser state, `seen + left` is preserved by
`parse_bytes`, `skip` and `parse_sub` whether they succeed or fail; a
successful call advances `seen` by `n` and shrinks `left` by `n`, and a
failing one returns the parser unchanged. -/
theorem c9_seen_left_invariant (p : SliceParser) (n : Nat) :
    ((p.parse_bytes n).2.seen + (p.parse_bytes n).2.left = p.seen + p.left
      ∧ (p.skip n).2.seen + (p.skip n).2.left = p.seen + p.left
      ∧ (p.parse_sub n).2.seen + (p.parse_sub n).2.left = p.seen + p.left)
    ∧ (n ≤ p.left →
      (p.parse_bytes n).2 = ⟨p.slice.drop n, p.seen + n⟩
      ∧ (p.skip n).2 = ⟨p.slice.drop n, p.seen + n⟩
      ∧ (p.parse_sub n).2 = ⟨p.slice.drop n, p.seen + n⟩
      ∧ p.seen + n = (p.parse_bytes n).2.seen
      ∧ p.left - n = (p.parse_bytes n).2.left)
    ∧ (p.left < n →
      (p.parse_bytes n).2 = p ∧ (p.skip n).2 = p ∧ (p.parse_sub n).2 = p)
    := by
  by_cases h : n ≤ p.slice.length
  · refine ⟨?_, ?_, ?_⟩ <;>
      first
        | (simp_all [SliceParser.parse_bytes, SliceParser.skip,
            SliceParser.parse_sub, SliceParser.check_len, SliceParser.left,
            Nat.not_lt.mpr h];
           omega)
        | simp_all [SliceParser.parse_bytes, SliceParser.skip,
            SliceParser.parse_sub, SliceParser.check_len, SliceParser.left,
            Nat.not_lt.mpr h]
  · refine ⟨?_, ?_, ?_⟩ <;>
      simp_all [SliceParser.parse_bytes, SliceParser.skip,
        SliceParser.parse_sub, SliceParser.check_len, SliceParser.left,
        Nat.lt_of_not_le h]

/-- C9 witness: at the concrete parser over `[7, 8, 9]` with `seen = 4`,
a successful `parse_bytes 2` advances `seen` to 6 leaving 1 byte, and a
failing `skip 9` leaves the parser unchanged; `seen + left` is 7
throughout. -/
theorem c9_seen_left_invariant_witness :
    (SliceParser.parse_bytes ⟨[7, 8, 9], 4⟩ 2).2 = ⟨[9], 6⟩
    ∧ (SliceParser.parse_bytes ⟨[7, 8, 9], 4⟩ 2).2.seen
        + (SliceParser.parse_bytes ⟨[7, 8, 9], 4⟩ 2).2.left = 7
    ∧ (SliceParser.skip ⟨[7, 8, 9], 4⟩ 9).2 = ⟨[7, 8, 9], 4⟩ := by
  refine ⟨?_, ?_, ?_⟩
  · have h := ((c9_seen_left_invariant ⟨[7, 8, 9], 4⟩ 2).2.1 (by decide)).1
    simpa using h
  · have h := (c9_seen_left_invariant ⟨[7, 8, 9], 4⟩ 2).1.1
    simpa [SliceParser.left] using h
  · exact ((c9_seen_left_invariant ⟨[7, 8, 9], 4⟩ 9).2.2 (by decide)).2.1

/-- Modelled from the spec: the short-buffer error `ShortBuf` of
`crate::parse`, which is not under `src/`; raised when a read requires
more bytes than remain. -/
inductive ShortBuf
  | shortBuf
deriving DecidableEq, Repr

/-- Modelled from the spec: the `ParseOpenError` of `crate::parse` (not
under `src/`); `Srv::parse_all` uses its short-field variant when the
declared record length is below the fixed prefix. -/
inductive ParseOpenError
  | shortField
deriving DecidableEq, Repr

/-- Modelled from the spec: the record-data cursor `crate::parse::Parser`
(not under `src/`) — a read position over an octet buffer where `read(n)`
returns exactly `n` bytes and advances, or fails with a short-buffer
condition when fewer than `n` remain. -/
structure Parser where
  octets : List Nat
  pos : Nat
deriving DecidableEq, Repr

/-- Modelled from the spec: `Parser::parse_octets(len)` returns the next
`len` octets and advances, or fails leaving the cursor unchanged. -/
def Parser.parse_octets (p : Parser) (len : Nat) :
    Except ShortBuf (List Nat) × Parser :=
  if p.pos + len ≤ p.octets.length then
    (Except.ok ((p.octets.drop p.pos).take len), ⟨p.octets, p.pos + len⟩)
  else (Except.error ShortBuf.shortBuf, p)

/-- Modelled from the spec: `u8::parse`, one octet. -/
def Parser.parse_u8 (p : Parser) : Except ShortBuf Nat × Parser :=
  match p.parse_octets 1 with
  | (Except.ok bytes, p') => (Except.ok (bytes.getD 0 0), p')
  | (Except.error e, p') => (Except.error e, p')

/-- Modelled from the spec: `u16::parse`, two octets combined big-endian. -/
def Parser.parse_u16 (p : Parser) : Except ShortBuf Nat × Parser :=
  match p.parse_octets 2 with
  | (Except.ok bytes, p') =>
    (Except.ok (bytes.getD 0 0 * 256 + bytes.getD 1 0), p')
  | (Except.error e, p') => (Except.error e, p')

/-- An SRV record-data value (`rfc2782.rs` lines 21-26), generic over the
target name representation as the Rust type is. -/
structure Srv (Name : Type) where
  priority : Nat
  weight : Nat
  port : Nat
  target : Name
deriving Repr

/-- `Srv::parse_all` (`rfc2782.rs` lines 142-155), generic over the
target-name parser and the error type `N::Err` exactly as the Rust
implementation is (`fromOpen` embeds `ParseOpenError`, `fromShort` the
parser errors): a declared length under 7 fails with the short-field error
before any field is consumed; otherwise priority, weight and port are read
as 16-bit words and the target name parses the remaining `len - 6`
budget. -/
def Srv.parse_all {E Name : Type} (fromOpen : ParseOpenError → E)
    (fromShort : ShortBuf → E)
    (nameParseAll : Parser → Nat → Except E Name × Parser)
    (p : Parser) (len : Nat) : Except E (Srv Name) × Parser :=
  if len < 7 then (Except.error (fromOpen ParseOpenError.shortField), p)
  else
    match p.parse_u16 with
    | (Except.error e, p1) => (Except.error (fromShort e), p1)
    | (Except.ok priority, p1) =>
      match p1.parse_u16 with
      | (Except.error e, p2) => (Except.error (fromShort e), p2)
      | (Except.ok weight, p2) =>
        match p2.parse_u16 with
        | (Except.error e, p3) => (Except.error (fromShort e), p3)
        | (Except.ok port, p3) =>
          match nameParseAll p3 (len - 6) with
          | (Except.error e, p4) => (Except.error e, p4)
          | (Except.ok target, p4) =>
            (Except.ok ⟨priority, weight, port, target⟩, p4)

/-- A DS record-data value (`rfc4034.rs` lines 792-798); the algorithm and
digest-type registries are held as their integer values. -/
structure Ds where
  key_tag : Nat
  algorithm : Nat
  digest_type : Nat
  digest : List Nat
deriving DecidableEq, Repr

/-- `Ds::parse_all` (`rfc4034.rs` lines 908-925): a declared length under
4 fails with the short-buffer error before any field is consumed;
otherwise the 16-bit key tag, the one-octet algorithm and digest type are
read, and the digest is the remaining `len - 4` octets. -/
def Ds.parse_all (p : Parser) (len : Nat) : Except ShortBuf Ds × Parser :=
  if len < 4 then (Except.error ShortBuf.shortBuf, p)
  else
    match p.parse_u16 with
    | (Except.error e, p1) => (Except.error e, p1)
    | (Except.ok key_tag, p1) =>
      match p1.parse_u8 with
      | (Except.error e, p2) => (Except.error e, p2)
      | (Except.ok algorithm, p2) =>
        match p2.parse_u8 with
        | (Except.error e, p3) => (Except.error e, p3)
        | (Except.ok digest_type, p3) =>
          match p3.parse_octets (len - 4) with
          | (Except.error e, p4) => (Except.error e, p4)
          | (Except.ok digest, p4) =>
            (Except.ok ⟨key_tag, algorithm, digest_type, digest⟩, p4)

/-- `ParseNsecError`'s conversion from `ShortBuf` (`rfc4034.rs` lines
1374-1377): the crate maps the short-buffer error to its short-field
variant, so the two length-guard failures surface as the same short-field
error. -/
def parseNsecErrorOfShortBuf : ShortBuf → Bool :=
  fun _ => true

/-- C7: `Srv::parse_all` fails with the short-field error for every
declared length under 7, and `Ds::parse_all` fails with its short-buffer
error (which the crate converts to the same short-field error, see
`rfc4034.rs` lines 1374-1377) for every declared length under 4 — in both
cases before consuming any field, whatever the cursor state and name
parser. -/
theorem c7_length_guards {E Name : Type} (fromOpen : ParseOpenError → E)
    (fromShort : ShortBuf → E)
    (nameParseAll : Parser → Nat → Except E Name × Parser)
    (p : Parser) (len : Nat) :
    (len < 7 →
      Srv.parse_all fromOpen fromShort nameParseAll p len
        = (Except.error (fromOpen ParseOpenError.shortField), p))
    ∧ (len < 4 →
      Ds.parse_all p len = (Except.error ShortBuf.shortBuf, p)) := by
  constructor
  · intro h
    simp [Srv.parse_all, h]
  · intro h
    simp [Ds.parse_all, h]

/-- C7 witness: at declared length 3 on an empty cursor (with the
identity error embeddings and a trivial name parser) both guards fire and
leave the cursor unchanged. -/
theorem c7_length_guards_witness :
    Srv.parse_all (fun e => e) (fun _ => ParseOpenError.shortField)
        (fun p _ => (Except.ok (), p)) ⟨[], 0⟩ 3
      = (Except.error ParseOpenError.shortField, ⟨[], 0⟩)
    ∧ Ds.parse_all ⟨[], 0⟩ 3 = (Except.error ShortBuf.shortBuf, ⟨[], 0⟩) := by
  constructor
  · exact (c7_length_guards (fun e => e) (fun _ => ParseOpenError.shortField)
      (fun p _ => (Except.ok (), p)) ⟨[], 0⟩ 3).1 (by decide)
  · exact (c7_length_guards (fun e => e) (fun _ => ParseOpenError.shortField)
      (fun p _ => (Except.ok (), p)) ⟨[], 0⟩ 3).2 (by decide)

/-- A well-formed encoded bitmap window: a window-number byte, a length
byte between 1 and 32, and exactly that many bitmap octets. -/
def GoodWindow (w : List Nat) : Prop :=
  ∃ n l bits, w = n :: l :: bits ∧ 1 ≤ l ∧ l ≤ 32 ∧ bits.length = l

/-- The validation loop steps over one well-formed window unchanged. -/
theorem check_goodWindow_append (w tail : List Nat) (h : GoodWindow w) :
    RtypeBitmap.check (w ++ tail) = RtypeBitmap.check tail := by
  obtain ⟨n, l, bits, rfl, h1, h2, h3⟩ := h
  rw [List.cons_append, List.cons_append]
  rw [RtypeBitmap.check]
  rw [if_neg (by omega), if_neg (by omega),
    if_neg (by simp only [List.length_cons, List.length_append, h3]; omega)]
  have hdrop : List.drop (l + 2) (n :: l :: (bits ++ tail))
      = List.drop l (bits ++ tail) := rfl
  rw [hdrop, List.drop_left' h3]

/-- The validation loop accepts any concatenation of well-formed
windows. -/
theorem check_goodWindows (ws : List (List Nat))
    (hws : ∀ w ∈ ws, GoodWindow w) :
    RtypeBitmap.check ws.flatten = some (Except.ok ()) := by
  induction ws with
  | nil => simp [RtypeBitmap.check]
  | cons w ws ih =>
    rw [List.flatten_cons,
      check_goodWindow_append w ws.flatten (hws w (by simp))]
    exact ih (fun w hw => hws w (by simp [hw]))

/-- C6: `RtypeBitmap::from_octets` accepts every sequence made of
well-formed windows, and rejects with an error every sequence in which
some window — after any number of well-formed ones — has a length byte of
0 (`BadRtypeBitmap`), a length byte of 33 or more (`BadRtypeBitmap`), or
fewer remaining bytes than its claimed length (`ShortBuf`). -/
theorem c6_from_octets_validation (ws : List (List Nat))
    (hws : ∀ w ∈ ws, GoodWindow w) :
    RtypeBitmap.from_octets ws.flatten = some (Except.ok ws.flatten)
    ∧ (∀ n l rest, l = 0 ∨ 33 ≤ l →
      RtypeBitmap.from_octets (ws.flatten ++ n :: l :: rest)
        = some (Except.error RtypeBitmapError.badRtypeBitmap))
    ∧ (∀ n l rest, 1 ≤ l → l ≤ 32 → rest.length < l →
      RtypeBitmap.from_octets (ws.flatten ++ n :: l :: rest)
        = some (Except.error RtypeBitmapError.shortBuf)) := by
  have hflat : ∀ tail, RtypeBitmap.check (ws.flatten ++ tail)
      = RtypeBitmap.check tail := by
    intro tail
    induction ws with
    | nil => simp
    | cons w ws ih =>
      rw [List.flatten_cons, List.append_assoc,
        check_goodWindow_append w _ (hws w (by simp))]
      exact ih (fun w hw => hws w (by simp [hw]))
  refine ⟨?_, ?_, ?_⟩
  · rw [RtypeBitmap.from_octets, check_goodWindows ws hws]
  · intro n l rest hl
    rw [RtypeBitmap.from_octets, hflat (n :: l :: rest)]
    rw [RtypeBitmap.check]
    rcases hl with hl | hl
    · rw [if_pos (by omega)]
    · rw [if_neg (by omega), if_pos (by omega)]
  · intro n l rest h1 h2 h3
    rw [RtypeBitmap.from_octets, hflat (n :: l :: rest)]
    rw [RtypeBitmap.check]
    rw [if_neg (by omega), if_neg (by omega), if_pos (by simp; omega)]

/-- C6 witness: the single well-formed window `00 01 40` is accepted; with
a zero-length window `05 00` appended the input is rejected as a bad
bitmap; with the truncated window `01 02 00` appended (claiming two
octets, holding one) it is rejected as a short buffer. -/
theorem c6_from_octets_validation_witness :
    RtypeBitmap.from_octets [0, 1, 64] = some (Except.ok [0, 1, 64])
    ∧ RtypeBitmap.from_octets [0, 1, 64, 5, 0]
      = some (Except.error RtypeBitmapError.badRtypeBitmap)
    ∧ RtypeBitmap.from_octets [0, 1, 64, 1, 2, 0]
      = some (Except.error RtypeBitmapError.shortBuf) := by
  have hws : ∀ w ∈ [[0, 1, 64]], GoodWindow w := by
    intro w hw
    rw [List.mem_singleton] at hw
    exact hw ▸ ⟨0, 1, [64], rfl, by omega, by omega, rfl⟩
  have h := c6_from_octets_validation [[0, 1, 64]] hws
  refine ⟨?_, ?_, ?_⟩
  · simpa using h.1
  · simpa using h.2.1 5 0 [] (Or.inl rfl)
  · simpa using h.2.2 1 2 [0] (by omega) (by omega) (by simp)
